import Mathlib

/-!
Verification of the software rendering pipeline (vertex transform, fragment
shading, primitive assembly, framebuffer writes) of the planet-system
renderer.  Scalars of the Rust `f32` type are embedded as exact rationals;
transcendental float primitives (sin, cos, sqrt, atan2) and the external
noise crate are embedded as abstract function parameters, so every shader
stays a pure function of its visible inputs.
-/

set_option linter.unusedVariables false

namespace PCG

/-- 2-component vector of scalars (embeds nalgebra_glm Vec2). -/
@[ext]
structure Vec2 where
  x : ℚ
  y : ℚ
  deriving DecidableEq

/-- 3-component vector of scalars (embeds nalgebra_glm Vec3). -/
@[ext]
structure Vec3 where
  x : ℚ
  y : ℚ
  z : ℚ
  deriving DecidableEq

/-- 4-component vector of scalars (embeds nalgebra_glm Vec4). -/
@[ext]
structure Vec4 where
  x : ℚ
  y : ℚ
  z : ℚ
  w : ℚ
  deriving DecidableEq

/-- Row-major 3x3 matrix (embeds nalgebra_glm Mat3). -/
@[ext]
structure Mat3 where
  m00 : ℚ
  m01 : ℚ
  m02 : ℚ
  m10 : ℚ
  m11 : ℚ
  m12 : ℚ
  m20 : ℚ
  m21 : ℚ
  m22 : ℚ
  deriving DecidableEq

/-- Row-major 4x4 matrix (embeds nalgebra_glm Mat4). -/
@[ext]
structure Mat4 where
  m00 : ℚ
  m01 : ℚ
  m02 : ℚ
  m03 : ℚ
  m10 : ℚ
  m11 : ℚ
  m12 : ℚ
  m13 : ℚ
  m20 : ℚ
  m21 : ℚ
  m22 : ℚ
  m23 : ℚ
  m30 : ℚ
  m31 : ℚ
  m32 : ℚ
  m33 : ℚ
  deriving DecidableEq

/-- Matrix-vector product for 4x4 matrices. -/
def Mat4.mulVec (a : Mat4) (v : Vec4) : Vec4 where
  x := a.m00 * v.x + a.m01 * v.y + a.m02 * v.z + a.m03 * v.w
  y := a.m10 * v.x + a.m11 * v.y + a.m12 * v.z + a.m13 * v.w
  z := a.m20 * v.x + a.m21 * v.y + a.m22 * v.z + a.m23 * v.w
  w := a.m30 * v.x + a.m31 * v.y + a.m32 * v.z + a.m33 * v.w

/-- Matrix-matrix product for 4x4 matrices. -/
def Mat4.mul (a b : Mat4) : Mat4 where
  m00 := a.m00 * b.m00 + a.m01 * b.m10 + a.m02 * b.m20 + a.m03 * b.m30
  m01 := a.m00 * b.m01 + a.m01 * b.m11 + a.m02 * b.m21 + a.m03 * b.m31
  m02 := a.m00 * b.m02 + a.m01 * b.m12 + a.m02 * b.m22 + a.m03 * b.m32
  m03 := a.m00 * b.m03 + a.m01 * b.m13 + a.m02 * b.m23 + a.m03 * b.m33
  m10 := a.m10 * b.m00 + a.m11 * b.m10 + a.m12 * b.m20 + a.m13 * b.m30
  m11 := a.m10 * b.m01 + a.m11 * b.m11 + a.m12 * b.m21 + a.m13 * b.m31
  m12 := a.m10 * b.m02 + a.m11 * b.m12 + a.m12 * b.m22 + a.m13 * b.m32
  m13 := a.m10 * b.m03 + a.m11 * b.m13 + a.m12 * b.m23 + a.m13 * b.m33
  m20 := a.m20 * b.m00 + a.m21 * b.m10 + a.m22 * b.m20 + a.m23 * b.m30
  m21 := a.m20 * b.m01 + a.m21 * b.m11 + a.m22 * b.m21 + a.m23 * b.m31
  m22 := a.m20 * b.m02 + a.m21 * b.m12 + a.m22 * b.m22 + a.m23 * b.m32
  m23 := a.m20 * b.m03 + a.m21 * b.m13 + a.m22 * b.m23 + a.m23 * b.m33
  m30 := a.m30 * b.m00 + a.m31 * b.m10 + a.m32 * b.m20 + a.m33 * b.m30
  m31 := a.m30 * b.m01 + a.m31 * b.m11 + a.m32 * b.m21 + a.m33 * b.m31
  m32 := a.m30 * b.m02 + a.m31 * b.m12 + a.m32 * b.m22 + a.m33 * b.m32
  m33 := a.m30 * b.m03 + a.m31 * b.m13 + a.m32 * b.m23 + a.m33 * b.m33

/-- Matrix-vector product for 3x3 matrices. -/
def Mat3.mulVec (a : Mat3) (v : Vec3) : Vec3 where
  x := a.m00 * v.x + a.m01 * v.y + a.m02 * v.z
  y := a.m10 * v.x + a.m11 * v.y + a.m12 * v.z
  z := a.m20 * v.x + a.m21 * v.y + a.m22 * v.z

/-- Transpose of a 3x3 matrix. -/
def Mat3.transpose (a : Mat3) : Mat3 where
  m00 := a.m00
  m01 := a.m10
  m02 := a.m20
  m10 := a.m01
  m11 := a.m11
  m12 := a.m21
  m20 := a.m02
  m21 := a.m12
  m22 := a.m22

/-- Determinant of a 3x3 matrix. -/
def Mat3.det (a : Mat3) : ℚ :=
  a.m00 * (a.m11 * a.m22 - a.m12 * a.m21)
    - a.m01 * (a.m10 * a.m22 - a.m12 * a.m20)
    + a.m02 * (a.m10 * a.m21 - a.m11 * a.m20)

/-- The 3x3 identity matrix (embeds Mat3::identity()). -/
def Mat3.identity : Mat3 where
  m00 := 1
  m01 := 0
  m02 := 0
  m10 := 0
  m11 := 1
  m12 := 0
  m20 := 0
  m21 := 0
  m22 := 1

/-- Cofactor-formula inverse of a 3x3 matrix (meaningful when the
determinant is nonzero); entry (i,j) is the (j,i) cofactor over the
determinant. -/
def Mat3.inverse (a : Mat3) : Mat3 where
  m00 := (a.m11 * a.m22 - a.m12 * a.m21) / a.det
  m01 := (a.m02 * a.m21 - a.m01 * a.m22) / a.det
  m02 := (a.m01 * a.m12 - a.m02 * a.m11) / a.det
  m10 := (a.m12 * a.m20 - a.m10 * a.m22) / a.det
  m11 := (a.m00 * a.m22 - a.m02 * a.m20) / a.det
  m12 := (a.m02 * a.m10 - a.m00 * a.m12) / a.det
  m20 := (a.m10 * a.m21 - a.m11 * a.m20) / a.det
  m21 := (a.m01 * a.m20 - a.m00 * a.m21) / a.det
  m22 := (a.m00 * a.m11 - a.m01 * a.m10) / a.det

/-- Embeds nalgebra try_inverse for 3x3 matrices: None exactly when the
determinant is zero, otherwise Some of the cofactor-formula inverse. -/
def Mat3.try_inverse (a : Mat3) : Option Mat3 :=
  if a.det = 0 then none else some a.inverse

/-- Embeds nalgebra_glm mat4_to_mat3: the upper-left 3x3 block. -/
def mat4_to_mat3 (a : Mat4) : Mat3 where
  m00 := a.m00
  m01 := a.m01
  m02 := a.m02
  m10 := a.m10
  m11 := a.m11
  m12 := a.m12
  m20 := a.m20
  m21 := a.m21
  m22 := a.m22

/-- Modelled from the spec: vertex.rs is not under src/.  A Vertex carries a
model-space position and normal, a texture coordinate, a per-vertex scalar
intensity weight, and the screen-space transformed position and world-space
transformed normal populated by the vertex stage. -/
structure Vertex where
  position : Vec3
  normal : Vec3
  tex_coords : Vec2
  color : ℚ
  transformed_position : Vec3
  transformed_normal : Vec3
  deriving DecidableEq

/-- Embeds the external FastNoiseLite crate as an abstract deterministic
noise field: pure functions of the sampling coordinates. -/
structure NoiseField where
  get_noise_2d : ℚ → ℚ → ℚ
  get_noise_3d : ℚ → ℚ → ℚ → ℚ

/-- The per-pass constant context (struct Uniforms of main.rs). -/
structure Uniforms where
  model_matrix : Mat4
  view_matrix : Mat4
  projection_matrix : Mat4
  viewport_matrix : Mat4
  time : ℕ
  noise : NoiseField

/-- Embeds the f32 transcendental primitives of the Rust standard library as
abstract pure functions. -/
structure RealOps where
  sin : ℚ → ℚ
  cos : ℚ → ℚ
  sqrt : ℚ → ℚ
  atan2 : ℚ → ℚ → ℚ

/-- Embeds vertex_shader of shaders.rs: lift the position to homogeneous
form, multiply by projection * view * model, divide x,y,z by the clip-space
w (total rational division, mirroring the guard-free f32 division), map
through the viewport matrix, and transform the normal by the
inverse-transpose of the model matrix upper 3x3 block with an identity
fallback when that inverse does not exist. -/
def vertex_shader (vertex : Vertex) (uniforms : Uniforms) : Vertex :=
  let position : Vec4 := ⟨vertex.position.x, vertex.position.y, vertex.position.z, 1⟩
  let transformed :=
    ((uniforms.projection_matrix.mul uniforms.view_matrix).mul uniforms.model_matrix).mulVec position
  let w := transformed.w
  let transformed_position : Vec4 := ⟨transformed.x / w, transformed.y / w, transformed.z / w, 1⟩
  let screen_position := uniforms.viewport_matrix.mulVec transformed_position
  let model_mat3 := mat4_to_mat3 uniforms.model_matrix
  let normal_matrix := (model_mat3.transpose.try_inverse).getD Mat3.identity
  let transformed_normal := normal_matrix.mulVec vertex.normal
  { position := vertex.position
    normal := vertex.normal
    tex_coords := vertex.tex_coords
    color := vertex.color
    transformed_position := ⟨screen_position.x, screen_position.y, screen_position.z⟩
    transformed_normal := transformed_normal }

/-- The clip-space position as the spec words it: projection, view and model
matrices applied in that order to the homogeneous (w = 1) model-space
position. -/
def clip_position (v : Vertex) (u : Uniforms) : Vec4 :=
  u.projection_matrix.mulVec
    (u.view_matrix.mulVec
      (u.model_matrix.mulVec ⟨v.position.x, v.position.y, v.position.z, 1⟩))

/-- The guard-free perspective divide: x, y, z divided by w, with total
rational division standing for the unguarded f32 division. -/
def perspective_divide (c : Vec4) : Vec4 :=
  ⟨c.x / c.w, c.y / c.w, c.z / c.w, 1⟩

/-- The screen position as the spec words it: clip position,
perspective-divided, mapped through the viewport matrix; x, y, z of the
result. -/
def spec_screen_position (v : Vertex) (u : Uniforms) : Vec3 :=
  let divided := perspective_divide (clip_position v u)
  let s := u.viewport_matrix.mulVec divided
  ⟨s.x, s.y, s.z⟩

/-- The zero 4x4 matrix, a projection choice producing clip-space w = 0. -/
def zero_mat4 : Mat4 :=
  ⟨0, 0, 0, 0, 0, 0, 0, 0, 0, 0, 0, 0, 0, 0, 0, 0⟩

/-- The 4x4 identity matrix. -/
def identity_mat4 : Mat4 :=
  ⟨1, 0, 0, 0, 0, 1, 0, 0, 0, 0, 1, 0, 0, 0, 0, 1⟩

/-- An everywhere-zero noise field, used to build concrete uniforms. -/
def noise_zero : NoiseField :=
  ⟨fun _ _ => 0, fun _ _ _ => 0⟩

/-- A concrete model-space vertex. -/
def vertex1 : Vertex :=
  ⟨⟨1, 2, 3⟩, ⟨0, 0, 1⟩, ⟨0, 0⟩, 1, ⟨0, 0, 0⟩, ⟨0, 0, 0⟩⟩

/-- Concrete uniforms with identity matrices. -/
def uniforms_id : Uniforms :=
  ⟨identity_mat4, identity_mat4, identity_mat4, identity_mat4, 0, noise_zero⟩

/-- Concrete uniforms whose zero projection matrix forces clip-space w = 0. -/
def uniforms_w0 : Uniforms :=
  ⟨identity_mat4, identity_mat4, zero_mat4, identity_mat4, 0, noise_zero⟩

/-- Embeds the Rust cast of a nonnegative f32-like scalar into u8 (the
`as u8` cast): truncate toward zero and saturate into [0, 255]. -/
def f32_to_u8 (q : ℚ) : ℕ :=
  if q < 0 then 0 else min 255 q.floor.toNat

/-- Truncation toward zero, the rounding of the Rust float remainder. -/
def rat_trunc (q : ℚ) : ℚ :=
  if 0 ≤ q then (q.floor : ℚ) else (q.ceil : ℚ)

/-- Embeds the Rust f32 remainder operator a % b: the remainder of the
truncating division, with the sign of the dividend. -/
def fmod (a b : ℚ) : ℚ :=
  a - b * rat_trunc (a / b)

/-- Dot product of 3-vectors. -/
def Vec3.dot (a b : Vec3) : ℚ :=
  a.x * b.x + a.y * b.y + a.z * b.z

/-- Embeds nalgebra normalize: the vector divided by its euclidean norm,
the norm taken through the abstract square-root primitive. -/
def Vec3.normalize (ops : RealOps) (v : Vec3) : Vec3 :=
  let len := ops.sqrt (v.dot v)
  ⟨v.x / len, v.y / len, v.z / len⟩

/-- Modelled from the spec: color.rs is not under src/.  A Color is an RGB
triple of 8-bit channels. -/
structure Color where
  r : ℕ
  g : ℕ
  b : ℕ
  deriving DecidableEq

/-- Embeds Color::new. -/
def Color.new (r g b : ℕ) : Color :=
  ⟨r, g, b⟩

/-- Modelled from the spec: color.rs is not under src/.  Scaling by an
intensity factor is a channel-wise multiply clamped to [0, 255]; this embeds
the `Color * f32` operator the shaders apply to the fragment intensity. -/
def Color.scale (c : Color) (factor : ℚ) : Color :=
  ⟨f32_to_u8 ((c.r : ℚ) * factor), f32_to_u8 ((c.g : ℚ) * factor),
    f32_to_u8 ((c.b : ℚ) * factor)⟩

/-- Modelled from the spec: color.rs is not under src/.  Linear channel-wise
interpolation from one color toward another by a scalar factor. -/
def Color.lerp (a b : Color) (t : ℚ) : Color :=
  ⟨f32_to_u8 ((a.r : ℚ) + ((b.r : ℚ) - (a.r : ℚ)) * t),
    f32_to_u8 ((a.g : ℚ) + ((b.g : ℚ) - (a.g : ℚ)) * t),
    f32_to_u8 ((a.b : ℚ) + ((b.b : ℚ) - (a.b : ℚ)) * t)⟩

/-- Embeds Color::is_black: every channel is zero. -/
def Color.is_black (c : Color) : Bool :=
  c.r == 0 && c.g == 0 && c.b == 0

/-- Embeds Color::to_hex: the packed RGB value of the spec. -/
def Color.to_hex (c : Color) : ℕ :=
  c.r * 65536 + c.g * 256 + c.b

/-- Modelled from the spec: fragment.rs is not under src/.  The spec gives
the interpolated screen position as integer pixel x, y, signed because the
rasterizer clamps to the buffer only at write time. -/
structure Vec2i where
  x : ℤ
  y : ℤ
  deriving DecidableEq

/-- Modelled from the spec: fragment.rs is not under src/.  A Fragment
carries the integer pixel position, a depth, the interpolated world-space
normal, an intensity scalar and the interpolated vertex-space position used
as the shading coordinate. -/
structure Fragment where
  position : Vec2i
  depth : ℚ
  normal : Vec3
  intensity : ℚ
  vertex_position : Vec3
  deriving DecidableEq

/-- Embeds static_pattern_shader of shaders.rs. -/
def static_pattern_shader (ops : RealOps) (fragment : Fragment) : Color :=
  let x := fragment.vertex_position.x
  let y := fragment.vertex_position.y
  let pattern := |ops.sin (x * 10) * ops.sin (y * 10)|
  let r := f32_to_u8 (pattern * 255)
  let g := f32_to_u8 ((1 - pattern) * 255)
  let b := 128
  Color.new r g b

/-- Embeds lava_shader of shaders.rs. -/
def lava_shader (ops : RealOps) (fragment : Fragment) (uniforms : Uniforms) : Color :=
  let bright_color := Color.new 255 240 0
  let dark_color := Color.new 130 20 0
  let position : Vec3 := ⟨fragment.vertex_position.x, fragment.vertex_position.y, fragment.depth⟩
  let base_frequency : ℚ := 0.2
  let pulsate_amplitude : ℚ := 0.5
  let t : ℚ := (uniforms.time : ℚ) * 0.01
  let pulsate := ops.sin (t * base_frequency) * pulsate_amplitude
  let zoom : ℚ := 1000
  let noise_value1 := uniforms.noise.get_noise_3d (position.x * zoom) (position.y * zoom)
    ((position.z + pulsate) * zoom)
  let noise_value2 := uniforms.noise.get_noise_3d ((position.x + 1000) * zoom)
    ((position.y + 1000) * zoom) ((position.z + 1000 + pulsate) * zoom)
  let noise_value := (noise_value1 + noise_value2) * 0.5
  let color := dark_color.lerp bright_color noise_value
  color.scale fragment.intensity

/-- Embeds ice_shader of shaders.rs. -/
def ice_shader (ops : RealOps) (fragment : Fragment) (uniforms : Uniforms) : Color :=
  let ripple_pattern := |ops.sin (fragment.vertex_position.x * 8 + (uniforms.time : ℚ) * 0.1)|
  let intensity := f32_to_u8 (ripple_pattern * 255)
  (Color.new 0 intensity 255).scale fragment.intensity

/-- Embeds cloud_shader of shaders.rs. -/
def cloud_shader (fragment : Fragment) (uniforms : Uniforms) : Color :=
  let zoom : ℚ := 100
  let ox : ℚ := 100
  let oy : ℚ := 100
  let x := fragment.vertex_position.x
  let y := fragment.vertex_position.y
  let cloud_time := (uniforms.time : ℚ) * 0.5
  let land_time := (uniforms.time : ℚ) * 0.2
  let cloud_noise := uniforms.noise.get_noise_2d (x * zoom + ox + cloud_time) (y * zoom + oy)
  let land_noise := uniforms.noise.get_noise_2d (x * zoom + ox + land_time) (y * zoom + oy)
  let cloud_threshold : ℚ := 0.5
  let land_threshold : ℚ := 0.1
  let cloud_color := Color.new 255 255 255
  let sky_color := Color.new 30 97 145
  let land_color := Color.new 0 100 0
  let final_color :=
    if cloud_noise > cloud_threshold then cloud_color
    else if land_noise > land_threshold then land_color
    else sky_color
  final_color.scale fragment.intensity

/-- Embeds metal_shader of shaders.rs. -/
def metal_shader (ops : RealOps) (fragment : Fragment) (uniforms : Uniforms) : Color :=
  let position := fragment.vertex_position
  let normal := Vec3.normalize ops fragment.normal
  let light_dir := Vec3.normalize ops ⟨0.5, 0.5, 1⟩
  let dot_product := max (normal.dot light_dir) 0
  let base_color := Color.new 100 100 120
  let highlight_color := Color.new 220 220 255
  (base_color.lerp highlight_color dot_product).scale fragment.intensity

/-- Embeds jupiter_shader of shaders.rs. -/
def jupiter_shader (ops : RealOps) (fragment : Fragment) (uniforms : Uniforms) : Color :=
  let zoom : ℚ := 100
  let x := fragment.vertex_position.x
  let y := fragment.vertex_position.y
  let band_noise := uniforms.noise.get_noise_2d (y * zoom) 0
  let dark_brown := Color.new 139 69 19
  let light_brown := Color.new 205 133 63
  let orange := Color.new 255 165 0
  let beige := Color.new 245 222 179
  let band_color :=
    if band_noise > 0.6 then dark_brown
    else if band_noise > 0.3 then beige
    else if band_noise > 0.0 then orange
    else light_brown
  let storm_position : Vec2 := ⟨0.3, -0.3⟩
  let storm_radius : ℚ := 0.15
  let distance_to_storm := ops.sqrt ((x - storm_position.x) ^ 2 + (y - storm_position.y) ^ 2)
  let storm_color := Color.new 255 69 0
  let final_color := if distance_to_storm < storm_radius then storm_color else band_color
  final_color.scale fragment.intensity

/-- Embeds ring_shader of shaders.rs. -/
def ring_shader (ops : RealOps) (fragment : Fragment) (uniforms : Uniforms) : Color :=
  let x := fragment.vertex_position.x
  let y := fragment.vertex_position.y
  let z := fragment.vertex_position.z
  let distance := ops.sqrt (x ^ 2 + y ^ 2)
  let angle := ops.atan2 y x
  let ring_width : ℚ := 0.02
  let ring_spacing : ℚ := 0.08
  let ring_pattern := |fmod distance ring_spacing / ring_width|
  let ring_intensity := if ring_pattern < 1 then 1 - ring_pattern else 0
  let ring_color := Color.new 200 200 200
  let planet_color := Color.new 100 50 200
  (ring_color.lerp planet_color (1 - ring_intensity)).scale fragment.intensity

/-- Embeds moving_circles_shader of shaders.rs. -/
def moving_circles_shader (ops : RealOps) (fragment : Fragment) (uniforms : Uniforms) : Color :=
  let x := fragment.vertex_position.x
  let y := fragment.vertex_position.y
  let time := (uniforms.time : ℚ) * 0.05
  let circle1_x := fmod (ops.sin time * 0.4 + 0.5) 1
  let circle2_x := fmod (ops.cos time * 0.4 + 0.5) 1
  let dist1 := ops.sqrt ((x - circle1_x) ^ 2 + (y - 0.3) ^ 2)
  let dist2 := ops.sqrt ((x - circle2_x) ^ 2 + (y - 0.7) ^ 2)
  let circle_size : ℚ := 0.1
  let circle1 : ℚ := if dist1 < circle_size then 1 else 0
  let circle2 : ℚ := if dist2 < circle_size then 1 else 0
  let circle_intensity := min (circle1 + circle2) 1
  Color.new (f32_to_u8 (circle_intensity * 255)) (f32_to_u8 (circle_intensity * 255))
    (f32_to_u8 (circle_intensity * 255))

/-- Embeds combined_shader of shaders.rs: the circle color wins when it is
not black, else the static pattern; either way scaled by the intensity. -/
def combined_shader (ops : RealOps) (fragment : Fragment) (uniforms : Uniforms) : Color :=
  let base_color := static_pattern_shader ops fragment
  let circle_color := moving_circles_shader ops fragment uniforms
  if !circle_color.is_black then circle_color.scale fragment.intensity
  else base_color.scale fragment.intensity

/-- Embeds fragment_shader of shaders.rs: dispatch on the shader tag, any
unrecognized tag falling through to the default combined shader. -/
def fragment_shader (ops : RealOps) (fragment : Fragment) (uniforms : Uniforms)
    (shader_type : String) : Color :=
  if shader_type = "cloud" then cloud_shader fragment uniforms
  else if shader_type = "lava" then lava_shader ops fragment uniforms
  else if shader_type = "ice" then ice_shader ops fragment uniforms
  else if shader_type = "jupiter" then jupiter_shader ops fragment uniforms
  else if shader_type = "ring" then ring_shader ops fragment uniforms
  else if shader_type = "metal" then metal_shader ops fragment uniforms
  else combined_shader ops fragment uniforms

/-- The time rate at which the cloud layer's x sampling coordinate advances
(the spec's cloud layer rate). -/
def cloud_time_rate : ℚ := 0.5

/-- The time rate at which the terrain layer's x sampling coordinate
advances (the spec's slower terrain rate). -/
def land_time_rate : ℚ := 0.2

/-- The cloud-layer 2D noise sample: x coordinate advancing with time at the
cloud rate. -/
def cloud_layer_sample (fragment : Fragment) (uniforms : Uniforms) : ℚ :=
  uniforms.noise.get_noise_2d
    (fragment.vertex_position.x * 100 + 100 + (uniforms.time : ℚ) * cloud_time_rate)
    (fragment.vertex_position.y * 100 + 100)

/-- The terrain-layer 2D noise sample: x coordinate advancing with time at
the slower terrain rate. -/
def land_layer_sample (fragment : Fragment) (uniforms : Uniforms) : ℚ :=
  uniforms.noise.get_noise_2d
    (fragment.vertex_position.x * 100 + 100 + (uniforms.time : ℚ) * land_time_rate)
    (fragment.vertex_position.y * 100 + 100)

/-- The cloud shader's pre-intensity color as the spec words it: cloud color
when the cloud sample exceeds the cloud threshold, else land color when the
terrain sample exceeds the land threshold, else sky color. -/
def cloud_base (fragment : Fragment) (uniforms : Uniforms) : Color :=
  if cloud_layer_sample fragment uniforms > 0.5 then Color.new 255 255 255
  else if land_layer_sample fragment uniforms > 0.1 then Color.new 0 100 0
  else Color.new 30 97 145

/-- The jupiter band noise as the spec words it: a function of the y
shading coordinate only. -/
def band_noise_of (uniforms : Uniforms) (y : ℚ) : ℚ :=
  uniforms.noise.get_noise_2d (y * 100) 0

/-- The jupiter band color as the spec words it: the band noise of y
quantized by threshold cuts into exactly four discrete colors. -/
def jupiter_band_color (uniforms : Uniforms) (y : ℚ) : Color :=
  if band_noise_of uniforms y > 0.6 then Color.new 139 69 19
  else if band_noise_of uniforms y > 0.3 then Color.new 245 222 179
  else if band_noise_of uniforms y > 0.0 then Color.new 255 165 0
  else Color.new 205 133 63

/-- The fixed storm center of the jupiter shader. -/
def storm_center : Vec2 := ⟨0.3, -0.3⟩

/-- Distance from the shading coordinate to the fixed storm center, through
the abstract square-root primitive. -/
def distance_to_storm_center (ops : RealOps) (x y : ℚ) : ℚ :=
  ops.sqrt ((x - storm_center.x) ^ 2 + (y - storm_center.y) ^ 2)

/-- The lava shader's pre-intensity base color. -/
def lava_base (ops : RealOps) (fragment : Fragment) (uniforms : Uniforms) : Color :=
  let bright_color := Color.new 255 240 0
  let dark_color := Color.new 130 20 0
  let position : Vec3 := ⟨fragment.vertex_position.x, fragment.vertex_position.y, fragment.depth⟩
  let pulsate := ops.sin ((uniforms.time : ℚ) * 0.01 * 0.2) * 0.5
  let noise_value1 := uniforms.noise.get_noise_3d (position.x * 1000) (position.y * 1000)
    ((position.z + pulsate) * 1000)
  let noise_value2 := uniforms.noise.get_noise_3d ((position.x + 1000) * 1000)
    ((position.y + 1000) * 1000) ((position.z + 1000 + pulsate) * 1000)
  dark_color.lerp bright_color ((noise_value1 + noise_value2) * 0.5)

/-- The ice shader's pre-intensity base color. -/
def ice_base (ops : RealOps) (fragment : Fragment) (uniforms : Uniforms) : Color :=
  Color.new 0 (f32_to_u8 (|ops.sin (fragment.vertex_position.x * 8 + (uniforms.time : ℚ) * 0.1)| * 255)) 255

/-- The metal shader's pre-intensity base color. -/
def metal_base (ops : RealOps) (fragment : Fragment) (uniforms : Uniforms) : Color :=
  (Color.new 100 100 120).lerp (Color.new 220 220 255)
    (max ((Vec3.normalize ops fragment.normal).dot (Vec3.normalize ops ⟨0.5, 0.5, 1⟩)) 0)

/-- The jupiter shader's pre-intensity base color: the storm color strictly
inside the fixed storm radius of the fixed storm center, else the band color
of y. -/
def jupiter_base (ops : RealOps) (fragment : Fragment) (uniforms : Uniforms) : Color :=
  if distance_to_storm_center ops fragment.vertex_position.x fragment.vertex_position.y < 0.15
  then Color.new 255 69 0
  else jupiter_band_color uniforms fragment.vertex_position.y

/-- The ring shader's pre-intensity base color. -/
def ring_base (ops : RealOps) (fragment : Fragment) (uniforms : Uniforms) : Color :=
  let distance := ops.sqrt (fragment.vertex_position.x ^ 2 + fragment.vertex_position.y ^ 2)
  let ring_pattern := |fmod distance 0.08 / 0.02|
  let ring_intensity := if ring_pattern < 1 then 1 - ring_pattern else 0
  (Color.new 200 200 200).lerp (Color.new 100 50 200) (1 - ring_intensity)

/-- The default shader's pre-intensity base color: the moving-circles color
when it is not black, else the static analytic pattern. -/
def combined_base (ops : RealOps) (fragment : Fragment) (uniforms : Uniforms) : Color :=
  if !(moving_circles_shader ops fragment uniforms).is_black
  then moving_circles_shader ops fragment uniforms
  else static_pattern_shader ops fragment

/-- The pre-intensity base color of each shader kind, dispatched as the
spec words it. -/
def shader_base_color (ops : RealOps) (fragment : Fragment) (uniforms : Uniforms)
    (shader_type : String) : Color :=
  if shader_type = "cloud" then cloud_base fragment uniforms
  else if shader_type = "lava" then lava_base ops fragment uniforms
  else if shader_type = "ice" then ice_base ops fragment uniforms
  else if shader_type = "jupiter" then jupiter_base ops fragment uniforms
  else if shader_type = "ring" then ring_base ops fragment uniforms
  else if shader_type = "metal" then metal_base ops fragment uniforms
  else combined_base ops fragment uniforms

/-- A concrete oracle for the abstract float primitives, used to build
concrete witnesses. -/
def ops_zero : RealOps :=
  ⟨fun _ => 0, fun _ => 0, fun _ => 0, fun _ _ => 0⟩

/-- A concrete fragment. -/
def fragment1 : Fragment :=
  ⟨⟨10, 20⟩, 0.5, ⟨0, 0, 1⟩, 1, ⟨0.1, 0.2, 0.3⟩⟩

/-- Embeds the Rust `as usize` cast from a signed integer: wrapping
conversion modulo 2 to the 64th. -/
def usize_cast (i : ℤ) : ℕ :=
  (i % (2 ^ 64 : ℤ)).toNat

/-- Modelled from the spec: framebuffer.rs is not under src/.  The
Framebuffer owns a packed-RGB color buffer and a parallel depth buffer of
fixed width and height, plus the current draw color. -/
structure Framebuffer where
  width : ℕ
  height : ℕ
  buffer : ℕ → ℕ → ℕ
  zbuffer : ℕ → ℕ → ℚ
  current_color : ℕ

/-- Modelled from the spec: set_current_color stores the color that the next
point writes. -/
def Framebuffer.set_current_color (fb : Framebuffer) (color : ℕ) : Framebuffer :=
  { fb with current_color := color }

/-- Modelled from the spec: point is a bounds-checked, depth-tested write:
outside the buffer extent it is a no-op; in bounds the pixel's color and
depth are updated exactly when the new depth is strictly nearer than the
stored one. -/
def Framebuffer.point (fb : Framebuffer) (x y : ℕ) (depth : ℚ) : Framebuffer :=
  if x < fb.width ∧ y < fb.height then
    if depth < fb.zbuffer x y then
      { fb with
        buffer := fun a b => if a = x ∧ b = y then fb.current_color else fb.buffer a b
        zbuffer := fun a b => if a = x ∧ b = y then depth else fb.zbuffer a b }
    else fb
  else fb

/-- Embeds the fragment-processing loop body of render in main.rs: an
initial shading with the lava tag is computed before anything else; the
bounds check on the cast pixel coordinates guards the selection chain, the
current-color store and the depth-tested point write, so an out-of-bounds
fragment touches nothing. -/
def process_fragment (ops : RealOps) (fb : Framebuffer) (u : Uniforms)
    (fragment : Fragment) (shader_selection : ℕ) : Framebuffer :=
  let x := usize_cast fragment.position.x
  let y := usize_cast fragment.position.y
  let shaded_color := fragment_shader ops fragment u "lava"
  if x < fb.width ∧ y < fb.height then
    let shaded_color :=
      if shader_selection = 0 then fragment_shader ops fragment u "lava"
      else if shader_selection = 1 then fragment_shader ops fragment u "ice"
      else if shader_selection = 2 then fragment_shader ops fragment u "cloud"
      else if shader_selection = 3 then fragment_shader ops fragment u "jupiter"
      else if shader_selection = 4 then fragment_shader ops fragment u "ring"
      else if shader_selection = 5 then fragment_shader ops fragment u "metal"
      else shaded_color
    let color := shaded_color.to_hex
    let fb1 := fb.set_current_color color
    fb1.point x y fragment.depth
  else fb

/-- A default vertex, standing for the panic-free vector indexing of the
assembly loop (every index the loop reads is guarded in bounds). -/
def default_vertex : Vertex :=
  ⟨⟨0, 0, 0⟩, ⟨0, 0, 0⟩, ⟨0, 0⟩, 0, ⟨0, 0, 0⟩, ⟨0, 0, 0⟩⟩

/-- Embeds the primitive-assembly loop of render: the index steps through
0, 3, 6, ... and a triple is pushed whenever index + 2 is still within the
vector; an iteration without a full triple pushes nothing and no later one
can, so the loop is this recursion. -/
def assemble_from (vs : List Vertex) (i : ℕ) : List (Vertex × Vertex × Vertex) :=
  if i + 2 < vs.length then
    (vs.getD i default_vertex, vs.getD (i + 1) default_vertex, vs.getD (i + 2) default_vertex)
      :: assemble_from vs (i + 3)
  else []
termination_by vs.length - i
decreasing_by omega

/-- The triangle list render assembles, starting at index 0. -/
def assemble_triangles (vs : List Vertex) : List (Vertex × Vertex × Vertex) :=
  assemble_from vs 0

/-- Embeds render of main.rs, parametric in the rasterizer (triangle.rs is
not under src/, so the per-triangle fragment production is an arbitrary
function of the three vertices and the shader selection): transform every
vertex, assemble consecutive triples, rasterize each triple, then run every
resulting fragment through the fragment-processing loop. -/
def render (rasterize : Vertex → Vertex → Vertex → ℕ → List Fragment) (ops : RealOps)
    (fb : Framebuffer) (u : Uniforms) (vertex_array : List Vertex)
    (shader_selection : ℕ) : Framebuffer :=
  let transformed_vertices := vertex_array.map (fun v => vertex_shader v u)
  let triangles := assemble_triangles transformed_vertices
  let fragments :=
    (triangles.map (fun tri => rasterize tri.1 tri.2.1 tri.2.2 shader_selection)).flatten
  fragments.foldl (fun acc fragment => process_fragment ops acc u fragment shader_selection) fb

/-- The triple grouping as the spec words it: for every i with 3i + 2 < n
the triple of indices 3i, 3i+1, 3i+2, and nothing else (the n mod 3 trailing
vertices appear in no triple). -/
def spec_triples (vs : List Vertex) : List (Vertex × Vertex × Vertex) :=
  (List.range (vs.length / 3)).map (fun i =>
    (vs.getD (3 * i) default_vertex, vs.getD (3 * i + 1) default_vertex,
      vs.getD (3 * i + 2) default_vertex))

/-- A concrete 2x2 framebuffer. -/
def framebuffer0 : Framebuffer :=
  ⟨2, 2, fun _ _ => 0, fun _ _ => 1000, 0⟩

/-- A concrete fragment whose pixel x coordinate is out of bounds for
framebuffer0. -/
def fragment_oob : Fragment :=
  ⟨⟨5, 0⟩, 0.5, ⟨0, 0, 1⟩, 1, ⟨0, 0, 0⟩⟩

/-- A concrete fragment in bounds for framebuffer0. -/
def fragment_inb : Fragment :=
  ⟨⟨1, 1⟩, 0.5, ⟨0, 0, 1⟩, 1, ⟨0, 0, 0⟩⟩

theorem Mat4.mul_mulVec (a b : Mat4) (v : Vec4) :
    (a.mul b).mulVec v = a.mulVec (b.mulVec v) := by
  ext <;> simp [Mat4.mul, Mat4.mulVec] <;> ring

theorem Mat3.det_transpose (a : Mat3) : a.transpose.det = a.det := by
  simp [Mat3.transpose, Mat3.det]
  ring

theorem Mat3.inverse_transpose_comm (a : Mat3) :
    a.transpose.inverse = a.inverse.transpose := by
  ext <;> simp [Mat3.transpose, Mat3.inverse, Mat3.det] <;> ring_nf

/-- Claim C1: for every vertex and uniforms with nonzero clip-space w,
vertex_shader computes the clip position as projection * view * model
applied to the homogeneous model-space position, divides x, y, z by its w,
maps the divided point through the viewport matrix, and returns the x, y, z
of that viewport-mapped point as transformed_position. -/
theorem c1_vertex_transform (v : Vertex) (u : Uniforms)
    (h : (clip_position v u).w ≠ 0) :
    (vertex_shader v u).transformed_position = spec_screen_position v u := by
  simp only [vertex_shader, spec_screen_position, clip_position, perspective_divide,
    Mat4.mul_mulVec]

/-- Witness for C1 at concrete identity-matrix uniforms and a concrete
vertex, where the clip-space w is 1. -/
theorem c1_vertex_transform_witness :
    (vertex_shader vertex1 uniforms_id).transformed_position =
      spec_screen_position vertex1 uniforms_id :=
  c1_vertex_transform vertex1 uniforms_id
    (by norm_num [clip_position, uniforms_id, identity_mat4, vertex1, Mat4.mulVec])

/-- Claim C3: vertex_shader transforms the normal by the inverse-transpose
of the upper 3x3 block of the model matrix, and by the identity matrix
instead when that block is singular, rather than failing. -/
theorem c3_normal_matrix (v : Vertex) (u : Uniforms) :
    (vertex_shader v u).transformed_normal =
      (if (mat4_to_mat3 u.model_matrix).det = 0 then Mat3.identity
       else ((mat4_to_mat3 u.model_matrix).inverse).transpose).mulVec v.normal := by
  simp only [vertex_shader, Mat3.try_inverse, Mat3.det_transpose]
  split
  · simp
  · simp [Mat3.inverse_transpose_comm]

/-- Claim C9: the perspective divide in vertex_shader is unconditional (no
branch guards against w = 0): the transformed position always equals the
viewport image of the guard-free divide of the clip position, and a concrete
vertex and uniforms (zero projection matrix) make the clip-space w equal to
0 while the function still returns. -/
theorem c9_unguarded_divide :
    (∀ (v : Vertex) (u : Uniforms),
      (vertex_shader v u).transformed_position =
        (let s := u.viewport_matrix.mulVec
          (perspective_divide
            (((u.projection_matrix.mul u.view_matrix).mul u.model_matrix).mulVec
              ⟨v.position.x, v.position.y, v.position.z, 1⟩))
         Vec3.mk s.x s.y s.z)) ∧
    (clip_position vertex1 uniforms_w0).w = 0 := by
  constructor
  · intro v u
    rfl
  · norm_num [clip_position, uniforms_w0, identity_mat4, zero_mat4, vertex1, Mat4.mulVec]

theorem combined_shader_scale (ops : RealOps) (f : Fragment) (u : Uniforms) :
    combined_shader ops f u = (combined_base ops f u).scale f.intensity := by
  simp only [combined_shader, combined_base]
  cases h : (moving_circles_shader ops f u).is_black <;> simp [h]

/-- Claim C5: for every fragment, uniforms and shader kind, fragment_shader
returns that shader's base color computation scaled channel-wise by the
fragment's intensity, the scaling applied as the final step. -/
theorem c5_intensity_scaling (ops : RealOps) (f : Fragment) (u : Uniforms) (k : String) :
    fragment_shader ops f u k = (shader_base_color ops f u k).scale f.intensity := by
  simp only [fragment_shader, shader_base_color]
  split_ifs <;> first
    | rfl
    | exact combined_shader_scale ops f u

/-- Claim C6: the cloud shader takes a cloud-layer and a terrain-layer 2D
noise sample whose x coordinates advance at two different time rates, the
terrain rate the slower one, compares them with the fixed thresholds and
picks cloud, then land, then sky color in that priority order before the
intensity scaling. -/
theorem c6_cloud_two_layers :
    (∀ (f : Fragment) (u : Uniforms),
      cloud_shader f u = (cloud_base f u).scale f.intensity) ∧
    land_time_rate < cloud_time_rate := by
  constructor
  · intro f u
    rfl
  · norm_num [land_time_rate, cloud_time_rate]

/-- Claim C7: the jupiter shader quantizes a band noise depending on y only
into exactly four discrete band colors by threshold cuts, overrides the band
color with the fixed storm color exactly when the shading coordinate lies
strictly within the fixed storm radius of the fixed storm center, and scales
the result by the fragment's intensity. -/
theorem c7_jupiter_storm_bands (ops : RealOps) (f : Fragment) (u : Uniforms) :
    jupiter_shader ops f u =
      (if distance_to_storm_center ops f.vertex_position.x f.vertex_position.y < 0.15
       then Color.new 255 69 0
       else jupiter_band_color u f.vertex_position.y).scale f.intensity := by
  rfl

/-- Claim C8: fragment_shader is deterministic: identical fragment and
identical uniforms (same matrices, time and noise field) give the identical
color for every shader kind. -/
theorem c8_shader_determinism (ops : RealOps) (k : String) (f1 f2 : Fragment)
    (u1 u2 : Uniforms) (hf : f1 = f2) (hu : u1 = u2) :
    fragment_shader ops f1 u1 k = fragment_shader ops f2 u2 k := by
  subst hf
  subst hu
  rfl

/-- Witness for C8 at a concrete fragment, concrete uniforms and the metal
shader kind. -/
theorem c8_shader_determinism_witness :
    fragment_shader ops_zero fragment1 uniforms_id "metal" =
      fragment_shader ops_zero fragment1 uniforms_id "metal" :=
  c8_shader_determinism ops_zero "metal" fragment1 fragment1 uniforms_id uniforms_id rfl rfl

theorem usize_cast_lt_iff (i : ℤ) (w : ℕ) (h1 : -(2 ^ 63) ≤ i) (h2 : i < 2 ^ 63)
    (hw : (w : ℤ) < 2 ^ 63) : usize_cast i < w ↔ 0 ≤ i ∧ i < (w : ℤ) := by
  unfold usize_cast
  omega

/-- Claim C2: a fragment whose pixel coordinates lie outside
[0,width) x [0,height) leaves the framebuffer untouched by the render
fragment-processing loop: no color or depth write, no depth test, no fault
(the function is total), for machine-representable coordinates and buffer
sizes. -/
theorem c2_out_of_bounds_fragment_dropped (ops : RealOps) (fb : Framebuffer) (u : Uniforms)
    (frag : Fragment) (sel : ℕ)
    (hx1 : -(2 ^ 63) ≤ frag.position.x) (hx2 : frag.position.x < 2 ^ 63)
    (hy1 : -(2 ^ 63) ≤ frag.position.y) (hy2 : frag.position.y < 2 ^ 63)
    (hw : (fb.width : ℤ) < 2 ^ 63) (hh : (fb.height : ℤ) < 2 ^ 63)
    (hout : ¬ (0 ≤ frag.position.x ∧ frag.position.x < (fb.width : ℤ) ∧
      0 ≤ frag.position.y ∧ frag.position.y < (fb.height : ℤ))) :
    process_fragment ops fb u frag sel = fb := by
  unfold process_fragment
  rw [if_neg]
  rintro ⟨ha, hb⟩
  exact hout ⟨((usize_cast_lt_iff _ _ hx1 hx2 hw).mp ha).1,
    ((usize_cast_lt_iff _ _ hx1 hx2 hw).mp ha).2,
    ((usize_cast_lt_iff _ _ hy1 hy2 hh).mp hb).1,
    ((usize_cast_lt_iff _ _ hy1 hy2 hh).mp hb).2⟩

/-- Witness for C2: a concrete fragment at pixel x = 5 outside a concrete
2x2 framebuffer is processed without any framebuffer change. -/
theorem c2_out_of_bounds_fragment_dropped_witness :
    process_fragment ops_zero framebuffer0 uniforms_id fragment_oob 0 = framebuffer0 :=
  c2_out_of_bounds_fragment_dropped ops_zero framebuffer0 uniforms_id fragment_oob 0
    (by norm_num [fragment_oob]) (by norm_num [fragment_oob])
    (by norm_num [fragment_oob]) (by norm_num [fragment_oob])
    (by norm_num [framebuffer0]) (by norm_num [framebuffer0])
    (by norm_num [fragment_oob, framebuffer0])

theorem assemble_from_eq (n : ℕ) (vs : List Vertex) (i : ℕ) (hn : vs.length - i ≤ n) :
    assemble_from vs i =
      (List.range ((vs.length - i) / 3)).map (fun j =>
        (vs.getD (i + 3 * j) default_vertex, vs.getD (i + 3 * j + 1) default_vertex,
          vs.getD (i + 3 * j + 2) default_vertex)) := by
  induction n generalizing i with
  | zero =>
    rw [assemble_from, if_neg (by omega)]
    have h3 : (vs.length - i) / 3 = 0 := by omega
    rw [h3]
    rfl
  | succ n ih =>
    rw [assemble_from]
    by_cases hc : i + 2 < vs.length
    · rw [if_pos hc, ih (i + 3) (by omega)]
      have h3 : (vs.length - i) / 3 = (vs.length - (i + 3)) / 3 + 1 := by omega
      rw [h3, List.range_succ_eq_map, List.map_cons, List.map_map]
      congr 1
      refine List.map_congr_left (fun j hj => ?_)
      simp only [Function.comp_apply, Nat.succ_eq_add_one]
      have e1 : i + 3 + 3 * j = i + 3 * (j + 1) := by ring
      rw [e1]
    · rw [if_neg hc]
      have h3 : (vs.length - i) / 3 = 0 := by omega
      rw [h3]
      rfl

/-- Claim C4: render groups the transformed vertices into the consecutive
non-overlapping triples of indices 3i, 3i+1, 3i+2 for every i with
3i + 2 < n, rasterizes exactly those triples, and the trailing n mod 3
leftover vertices form no triangle and contribute no fragments: the whole
render run equals processing exactly the fragments of those triples. -/
theorem c4_triple_grouping (rasterize : Vertex → Vertex → Vertex → ℕ → List Fragment)
    (ops : RealOps) (fb : Framebuffer) (u : Uniforms) (vertex_array : List Vertex)
    (sel : ℕ) :
    assemble_triangles (vertex_array.map (fun v => vertex_shader v u)) =
      spec_triples (vertex_array.map (fun v => vertex_shader v u)) ∧
    render rasterize ops fb u vertex_array sel =
      (((spec_triples (vertex_array.map (fun v => vertex_shader v u))).map
        (fun tri => rasterize tri.1 tri.2.1 tri.2.2 sel)).flatten).foldl
        (fun acc fragment => process_fragment ops acc u fragment sel) fb := by
  have key : assemble_triangles (vertex_array.map (fun v => vertex_shader v u)) =
      spec_triples (vertex_array.map (fun v => vertex_shader v u)) := by
    unfold assemble_triangles spec_triples
    rw [assemble_from_eq (vertex_array.map (fun v => vertex_shader v u)).length _ 0 (by omega)]
    simp
  refine ⟨key, ?_⟩
  simp only [render]
  rw [key]

theorem fragment_shader_lava (ops : RealOps) (f : Fragment) (u : Uniforms) :
    fragment_shader ops f u "lava" = lava_shader ops f u := by
  rfl

/-- Claim C10: an in-bounds fragment processed with a shader_selection
outside 0 through 5 is shaded with the lava shader (the initial lava shading
is retained because no selection branch matches) and written with that lava
color, not with the default combined shader. -/
theorem c10_unmatched_selection_keeps_lava (ops : RealOps) (fb : Framebuffer) (u : Uniforms)
    (frag : Fragment) (sel : ℕ) (hsel : 5 < sel)
    (hx : usize_cast frag.position.x < fb.width)
    (hy : usize_cast frag.position.y < fb.height) :
    process_fragment ops fb u frag sel =
      (fb.set_current_color ((lava_shader ops frag u).to_hex)).point
        (usize_cast frag.position.x) (usize_cast frag.position.y) frag.depth := by
  unfold process_fragment
  rw [if_pos ⟨hx, hy⟩]
  rw [if_neg (by omega), if_neg (by omega), if_neg (by omega), if_neg (by omega),
    if_neg (by omega), if_neg (by omega)]
  rw [fragment_shader_lava]

/-- Witness for C10: a concrete in-bounds fragment with shader selection 6
is written with the lava color. -/
theorem c10_unmatched_selection_keeps_lava_witness :
    process_fragment ops_zero framebuffer0 uniforms_id fragment_inb 6 =
      (framebuffer0.set_current_color ((lava_shader ops_zero fragment_inb uniforms_id).to_hex)).point
        (usize_cast fragment_inb.position.x) (usize_cast fragment_inb.position.y)
        fragment_inb.depth :=
  c10_unmatched_selection_keeps_lava ops_zero framebuffer0 uniforms_id fragment_inb 6
    (by norm_num)
    (by norm_num [usize_cast, fragment_inb, framebuffer0])
    (by norm_num [usize_cast, fragment_inb, framebuffer0])

end PCG
